import Mathlib

/-!
Shallow embedding of the Windows raw-mode and size modules of the termion
repository (src/raw_windows.rs, src/size_windows.rs), together with theorems
checking the natural-language specification against the code.

The console-mode API (kernel32's GetStdHandle / GetConsoleMode /
SetConsoleMode / GetConsoleScreenBufferInfo) is modelled as an explicit
`Backend` state: the two DWORD mode words for the standard output and input
endpoints, the reported screen-buffer size, and one boolean per API call
recording whether that call succeeds on the given endpoint.  The Rust code's
`io::Result` is `Except IoErr`; every state change is threaded explicitly, so
a call that fails after mutating the backend keeps the mutation visible.
-/

namespace Termion

/-- `io::Error::last_os_error()` — an opaque environment fault. -/
inductive IoErr where
  | osError
  deriving DecidableEq, Repr

/-- The two standard-stream endpoints (`STD_OUTPUT_HANDLE`, `STD_INPUT_HANDLE`).
A successfully resolved handle is identified with its endpoint. -/
inductive Endpoint where
  | output
  | input
  deriving DecidableEq, Repr

/-- Flag constants declared in src/raw_windows.rs. -/
def ENABLE_VIRTUAL_TERMINAL_PROCESSING : Nat := 0x0004

def DISABLE_NEWLINE_AUTO_RETURN : Nat := 0x0008

def ENABLE_VIRTUAL_TERMINAL_INPUT : Nat := 0x0200

/-- Flag constants imported from `winapi::wincon` (fixed Windows API values). -/
def ENABLE_PROCESSED_OUTPUT : Nat := 0x0001

def ENABLE_ECHO_INPUT : Nat := 0x0004

def ENABLE_LINE_INPUT : Nat := 0x0002

def ENABLE_PROCESSED_INPUT : Nat := 0x0001

def ENABLE_WINDOW_INPUT : Nat := 0x0008

/-- `!x` on a Rust `u32`: complement within 32 bits. -/
def not32 (x : Nat) : Nat := 0xFFFFFFFF ^^^ x

/-- The console backend: process-wide console state plus, for each API call
the code makes, whether the environment lets it succeed. -/
structure Backend where
  outputMode : Nat
  inputMode : Nat
  dwSizeX : Int
  dwSizeY : Int
  resolveOutput : Bool
  resolveInput : Bool
  getOutputOk : Bool
  getInputOk : Bool
  setOutputOk : Bool
  setInputOk : Bool
  bufferInfoOk : Bool
  deriving DecidableEq, Repr

/-- `get_std_handle` in src/raw_windows.rs: `GetStdHandle` followed by the
`INVALID_HANDLE_VALUE` check.  Pure query, no state change. -/
def get_std_handle (b : Backend) (e : Endpoint) : Except IoErr Endpoint :=
  match e with
  | .output => if b.resolveOutput then .ok .output else .error .osError
  | .input => if b.resolveInput then .ok .input else .error .osError

/-- `get_console_mode` in src/raw_windows.rs: reads the current mode word of
the endpoint the handle refers to.  Pure query, no state change. -/
def get_console_mode (b : Backend) (h : Endpoint) : Except IoErr Nat :=
  match h with
  | .output => if b.getOutputOk then .ok b.outputMode else .error .osError
  | .input => if b.getInputOk then .ok b.inputMode else .error .osError

/-- `set_console_mode` in src/raw_windows.rs: replaces the endpoint's mode
word, or fails leaving the state unchanged. -/
def set_console_mode (b : Backend) (h : Endpoint) (m : Nat) :
    Except IoErr Unit × Backend :=
  match h with
  | .output =>
    if b.setOutputOk then (.ok (), { b with outputMode := m })
    else (.error .osError, b)
  | .input =>
    if b.setInputOk then (.ok (), { b with inputMode := m })
    else (.error .osError, b)

/-- The output-side mode computation of `enable_vt_mode_output`
(src/raw_windows.rs lines 119-120):
`console_mode | ENABLE_VIRTUAL_TERMINAL_PROCESSING | DISABLE_NEWLINE_AUTO_RETURN | ENABLE_PROCESSED_OUTPUT`. -/
def outputRawTransform (console_mode : Nat) : Nat :=
  console_mode ||| ENABLE_VIRTUAL_TERMINAL_PROCESSING |||
    DISABLE_NEWLINE_AUTO_RETURN ||| ENABLE_PROCESSED_OUTPUT

/-- The input-side mode computation of `enable_vt_mode_input`
(src/raw_windows.rs lines 132-133):
`console_mode & !(ENABLE_ECHO_INPUT | ENABLE_LINE_INPUT | ENABLE_PROCESSED_INPUT)`,
then `|= ENABLE_VIRTUAL_TERMINAL_INPUT | ENABLE_WINDOW_INPUT`. -/
def inputRawTransform (console_mode : Nat) : Nat :=
  (console_mode &&&
      not32 (ENABLE_ECHO_INPUT ||| ENABLE_LINE_INPUT ||| ENABLE_PROCESSED_INPUT)) |||
    (ENABLE_VIRTUAL_TERMINAL_INPUT ||| ENABLE_WINDOW_INPUT)

/-- `enable_vt_mode_output` in src/raw_windows.rs: resolve the output handle,
read its mode, write the raw-mode word, return the previous mode word. -/
def enable_vt_mode_output (b : Backend) : Except IoErr Nat × Backend :=
  match get_std_handle b .output with
  | .error e => (.error e, b)
  | .ok handle =>
    match get_console_mode b handle with
    | .error e => (.error e, b)
    | .ok console_mode =>
      match set_console_mode b handle (outputRawTransform console_mode) with
      | (.error e, b1) => (.error e, b1)
      | (.ok _, b1) => (.ok console_mode, b1)

/-- `enable_vt_mode_input` in src/raw_windows.rs: resolve the input handle,
read its mode, write the raw-mode word, return the previous mode word. -/
def enable_vt_mode_input (b : Backend) : Except IoErr Nat × Backend :=
  match get_std_handle b .input with
  | .error e => (.error e, b)
  | .ok handle =>
    match get_console_mode b handle with
    | .error e => (.error e, b)
    | .ok console_mode =>
      match set_console_mode b handle (inputRawTransform console_mode) with
      | (.error e, b1) => (.error e, b1)
      | (.ok _, b1) => (.ok console_mode, b1)

/-- `RawTerminal<W>` in src/raw_windows.rs: the two saved mode words and the
wrapped sink.  Note it stores no handles. -/
structure RawTerminal (W : Type) where
  output_prev : Nat
  input_prev : Nat
  output : W
  deriving DecidableEq, Repr

/-- `into_raw_mode` in src/raw_windows.rs:
`enable_vt_mode_output` then `enable_vt_mode_input`, each failure propagated
by `try!` with no cleanup. -/
def into_raw_mode (W : Type) (b : Backend) (sink : W) :
    Except IoErr (RawTerminal W) × Backend :=
  match enable_vt_mode_output b with
  | (.error e, b1) => (.error e, b1)
  | (.ok output_prev, b1) =>
    match enable_vt_mode_input b1 with
    | (.error e, b2) => (.error e, b2)
    | (.ok input_prev, b2) =>
      (.ok { output_prev := output_prev, input_prev := input_prev,
             output := sink }, b2)

/-- Outcome of running the `Drop` glue: either the drop body ran to completion,
or a `.unwrap()` failed and the thread panicked (the rest of the body does not
run). -/
inductive DropOutcome where
  | ok
  | panicked
  deriving DecidableEq, Repr

/-- The input half of `Drop for RawTerminal` (src/raw_windows.rs lines 53-55):
`if let Ok(handle) = get_std_handle(STD_INPUT_HANDLE) { set_console_mode(handle, self.input_prev).unwrap(); }`. -/
def dropRestoreInput (W : Type) (b : Backend) (t : RawTerminal W) :
    DropOutcome × Backend :=
  match get_std_handle b .input with
  | .error _ => (.ok, b)
  | .ok handle =>
    match set_console_mode b handle t.input_prev with
    | (.error _, b1) => (.panicked, b1)
    | (.ok _, b1) => (.ok, b1)

/-- `Drop for RawTerminal` in src/raw_windows.rs (lines 47-57): re-resolve
each standard handle, and for each endpoint whose handle resolves, write the
saved mode back, unwrapping the result.  A panic in the output half aborts the
body before the input half runs. -/
def rawTerminalDrop (W : Type) (b : Backend) (t : RawTerminal W) :
    DropOutcome × Backend :=
  match get_std_handle b .output with
  | .error _ => dropRestoreInput W b t
  | .ok handle =>
    match set_console_mode b handle t.output_prev with
    | (.error _, b1) => (.panicked, b1)
    | (.ok _, b1) => dropRestoreInput W b1 t

/-- A byte-sink capability: the `Write` bound of `RawTerminal<W>`, with the
sink's own state made explicit.  `write` returns the number of bytes accepted
and the evolved sink state; `flush` returns the evolved sink state. -/
structure WriteImpl (W : Type) where
  write : W → List Nat → Except IoErr (Nat × W)
  flush : W → Except IoErr W

/-- `<RawTerminal<W> as Write>::write` (src/raw_windows.rs lines 74-76):
`self.output.write(buf)`. -/
def RawTerminal.write (W : Type) (iw : WriteImpl W) (t : RawTerminal W)
    (buf : List Nat) : Except IoErr (Nat × RawTerminal W) :=
  match iw.write t.output buf with
  | .error e => .error e
  | .ok (n, w1) => .ok (n, { t with output := w1 })

/-- `<RawTerminal<W> as Write>::flush` (src/raw_windows.rs lines 78-80):
`self.output.flush()`. -/
def RawTerminal.flush (W : Type) (iw : WriteImpl W) (t : RawTerminal W) :
    Except IoErr (RawTerminal W) :=
  match iw.flush t.output with
  | .error e => .error e
  | .ok w1 => .ok { t with output := w1 }

/-- Rust's `x as u16` on an `i16` value: the bit-preserving narrowing cast,
i.e. the value modulo 2^16 (Int.emod, result in [0, 65536)). -/
def i16_as_u16 (x : Int) : Nat := (x % 65536).toNat

/-- `terminal_size` in src/size_windows.rs: `GetStdHandle(STD_OUTPUT_HANDLE)`
with the `INVALID_HANDLE_VALUE` check, then `GetConsoleScreenBufferInfo`, then
`Ok((buffer_info.dwSize.X as u16, buffer_info.dwSize.Y as u16))`. -/
def terminal_size (b : Backend) : Except IoErr (Nat × Nat) :=
  if b.resolveOutput then
    if b.bufferInfoOk then
      .ok (i16_as_u16 b.dwSizeX, i16_as_u16 b.dwSizeY)
    else .error .osError
  else .error .osError

/-! ### Bit-level helper lemmas about the two mode transforms -/

theorem testBit_outputRawTransform (m i : Nat) :
    (outputRawTransform m).testBit i =
      (m.testBit i || (decide (i = 2) || decide (i = 3) || decide (i = 0))) := by
  have h4 : (ENABLE_VIRTUAL_TERMINAL_PROCESSING : Nat) = 2 ^ 2 := by decide
  have h8 : (DISABLE_NEWLINE_AUTO_RETURN : Nat) = 2 ^ 3 := by decide
  have h1 : (ENABLE_PROCESSED_OUTPUT : Nat) = 2 ^ 0 := by decide
  rw [outputRawTransform, h4, h8, h1, Nat.testBit_lor, Nat.testBit_lor,
    Nat.testBit_lor, Nat.testBit_two_pow, Nat.testBit_two_pow,
    Nat.testBit_two_pow]
  by_cases e2 : i = 2 <;> by_cases e3 : i = 3 <;> by_cases e0 : i = 0 <;>
    simp [e2, e3, e0, eq_comm, Bool.or_assoc]

theorem testBit_land_maskHigh (m i : Nat) :
    (m &&& 0xFFFFFFF8).testBit i =
      (m.testBit i && (decide (3 ≤ i) && decide (i < 32))) := by
  rw [Nat.testBit_land]
  have h : (0xFFFFFFF8 : Nat) = 2 ^ 32 - 1 ^^^ (2 ^ 3 - 1) := by decide
  rw [h, Nat.testBit_xor, Nat.testBit_two_pow_sub_one, Nat.testBit_two_pow_sub_one]
  by_cases h3 : i < 3
  · have h32 : i < 32 := by omega
    have hn : ¬ 3 ≤ i := by omega
    simp [h3, h32, hn]
  · by_cases h32 : i < 32
    · have hy : 3 ≤ i := by omega
      simp [h3, h32, hy]
    · simp [h3, h32]

theorem testBit_inputRawTransform (m i : Nat) :
    (inputRawTransform m).testBit i =
      ((m.testBit i && (decide (3 ≤ i) && decide (i < 32))) ||
        (decide (i = 3) || decide (i = 9))) := by
  have hmask :
      not32 (ENABLE_ECHO_INPUT ||| ENABLE_LINE_INPUT ||| ENABLE_PROCESSED_INPUT) =
        0xFFFFFFF8 := by decide
  have hset :
      (ENABLE_VIRTUAL_TERMINAL_INPUT ||| ENABLE_WINDOW_INPUT : Nat) =
        2 ^ 3 ||| 2 ^ 9 := by decide
  rw [inputRawTransform, hmask, hset, Nat.testBit_lor, Nat.testBit_lor,
    Nat.testBit_two_pow, Nat.testBit_two_pow, testBit_land_maskHigh]
  by_cases e3 : i = 3 <;> by_cases e9 : i = 9 <;> simp [e3, e9, eq_comm]

/-- C9: both raw-mode flag transformations are idempotent: a second
application of the output transform or of the input transform computes the
very flags the first application produced, so entering raw mode from an
already-raw endpoint writes back the value the endpoint already has. -/
theorem rawTransforms_idempotent (m : Nat) :
    outputRawTransform (outputRawTransform m) = outputRawTransform m ∧
      inputRawTransform (inputRawTransform m) = inputRawTransform m := by
  constructor
  · apply Nat.eq_of_testBit_eq
    intro i
    rw [testBit_outputRawTransform, testBit_outputRawTransform]
    cases m.testBit i <;> simp
  · apply Nat.eq_of_testBit_eq
    intro i
    rw [testBit_inputRawTransform, testBit_inputRawTransform]
    by_cases e3 : i = 3
    · simp [e3]
    · by_cases e9 : i = 9
      · simp [e9]
      · simp [e3, e9]

/-- C4: a successful `enable_vt_mode_output` writes back exactly
`output_prev | ENABLE_VIRTUAL_TERMINAL_PROCESSING | DISABLE_NEWLINE_AUTO_RETURN | ENABLE_PROCESSED_OUTPUT`
(bits 2, 3 and 0), leaves every other bit of `output_prev` unchanged, and
returns the unmodified `output_prev`. -/
theorem enable_vt_mode_output_spec (b : Backend) (hres : b.resolveOutput = true)
    (hget : b.getOutputOk = true) (hset : b.setOutputOk = true) :
    enable_vt_mode_output b =
      (Except.ok b.outputMode,
        { b with outputMode := outputRawTransform b.outputMode }) ∧
    outputRawTransform b.outputMode =
      b.outputMode |||
        (ENABLE_VIRTUAL_TERMINAL_PROCESSING ||| DISABLE_NEWLINE_AUTO_RETURN |||
          ENABLE_PROCESSED_OUTPUT) ∧
    (∀ i, i ≠ 2 → i ≠ 3 → i ≠ 0 →
      (outputRawTransform b.outputMode).testBit i = b.outputMode.testBit i) ∧
    (outputRawTransform b.outputMode).testBit 2 = true ∧
    (outputRawTransform b.outputMode).testBit 3 = true ∧
    (outputRawTransform b.outputMode).testBit 0 = true := by
  refine ⟨?_, ?_, ?_, ?_, ?_, ?_⟩
  · simp [enable_vt_mode_output, get_std_handle, get_console_mode,
      set_console_mode, hres, hget, hset]
  · simp [outputRawTransform, ENABLE_VIRTUAL_TERMINAL_PROCESSING,
      DISABLE_NEWLINE_AUTO_RETURN, ENABLE_PROCESSED_OUTPUT, Nat.or_assoc]
  · intro i h2 h3 h0
    rw [testBit_outputRawTransform]
    simp [h2, h3, h0]
  · rw [testBit_outputRawTransform]; simp
  · rw [testBit_outputRawTransform]; simp
  · rw [testBit_outputRawTransform]; simp

/-- Witness for C4 at a concrete backend: previous output mode `0b10000`
becomes `0b11101 = 29`, and `16` is returned. -/
theorem enable_vt_mode_output_spec_witness :
    enable_vt_mode_output
        ⟨16, 0, 80, 24, true, true, true, true, true, true, true⟩ =
      (Except.ok 16, ⟨29, 0, 80, 24, true, true, true, true, true, true, true⟩) := by
  have h := (enable_vt_mode_output_spec
    ⟨16, 0, 80, 24, true, true, true, true, true, true, true⟩ rfl rfl rfl).1
  exact h

/-- C5: a successful `enable_vt_mode_input` writes back `input_prev` with
exactly `ENABLE_PROCESSED_INPUT` (bit 0), `ENABLE_LINE_INPUT` (bit 1) and
`ENABLE_ECHO_INPUT` (bit 2) cleared and exactly `ENABLE_WINDOW_INPUT` (bit 3)
and `ENABLE_VIRTUAL_TERMINAL_INPUT` (bit 9) set, leaves every other bit of
`input_prev` unchanged, and returns the unmodified `input_prev`. -/
theorem enable_vt_mode_input_spec (b : Backend) (hm : b.inputMode < 2 ^ 32)
    (hres : b.resolveInput = true) (hget : b.getInputOk = true)
    (hset : b.setInputOk = true) :
    enable_vt_mode_input b =
      (Except.ok b.inputMode,
        { b with inputMode := inputRawTransform b.inputMode }) ∧
    (∀ i, i ≠ 0 → i ≠ 1 → i ≠ 2 → i ≠ 3 → i ≠ 9 →
      (inputRawTransform b.inputMode).testBit i = b.inputMode.testBit i) ∧
    (inputRawTransform b.inputMode).testBit 0 = false ∧
    (inputRawTransform b.inputMode).testBit 1 = false ∧
    (inputRawTransform b.inputMode).testBit 2 = false ∧
    (inputRawTransform b.inputMode).testBit 3 = true ∧
    (inputRawTransform b.inputMode).testBit 9 = true := by
  refine ⟨?_, ?_, ?_, ?_, ?_, ?_, ?_⟩
  · simp [enable_vt_mode_input, get_std_handle, get_console_mode,
      set_console_mode, hres, hget, hset]
  · intro i h0 h1 h2 h3 h9
    rw [testBit_inputRawTransform]
    by_cases h32 : i < 32
    · have hge : 3 ≤ i := by omega
      simp [h3, h9, h32, hge]
    · have hbit : b.inputMode.testBit i = false :=
        Nat.testBit_lt_two_pow
          (lt_of_lt_of_le hm (Nat.pow_le_pow_right (by norm_num) (by omega)))
      simp [h3, h9, h32, hbit]
  · rw [testBit_inputRawTransform]; simp
  · rw [testBit_inputRawTransform]; simp
  · rw [testBit_inputRawTransform]; simp
  · rw [testBit_inputRawTransform]; simp
  · rw [testBit_inputRawTransform]; simp

/-- Witness for C5 at a concrete backend: previous input mode `0b1110 = 14`
(echo, line, processed-with-echo bits) becomes `0x208 = 520`, and `14` is
returned. -/
theorem enable_vt_mode_input_spec_witness :
    enable_vt_mode_input
        ⟨0, 14, 80, 24, true, true, true, true, true, true, true⟩ =
      (Except.ok 14, ⟨0, 520, 80, 24, true, true, true, true, true, true, true⟩) := by
  have h := (enable_vt_mode_input_spec
    ⟨0, 14, 80, 24, true, true, true, true, true, true, true⟩
    (by norm_num) rfl rfl rfl).1
  exact h

/-- C3: restoration round-trip.  When every backend call succeeds and nothing
else touches the modes in between, `into_raw_mode` returns a session wrapping
the sink, and dropping that session restores the backend exactly to its
initial state — in particular the output flags to O and the input flags to I,
with no bit drift. -/
theorem raw_mode_round_trip (W : Type) (b : Backend) (sink : W)
    (h1 : b.resolveOutput = true) (h2 : b.getOutputOk = true)
    (h3 : b.setOutputOk = true) (h4 : b.resolveInput = true)
    (h5 : b.getInputOk = true) (h6 : b.setInputOk = true) :
    ∃ t : RawTerminal W,
      (into_raw_mode W b sink).1 = Except.ok t ∧ t.output = sink ∧
      rawTerminalDrop W (into_raw_mode W b sink).2 t = (DropOutcome.ok, b) := by
  obtain ⟨om, im, dx, dy, ro, ri, go, gi, so, si, bi⟩ := b
  simp only at h1 h2 h3 h4 h5 h6
  subst h1; subst h2; subst h3; subst h4; subst h5; subst h6
  refine ⟨⟨om, im, sink⟩, ?_, rfl, ?_⟩
  · simp [into_raw_mode, enable_vt_mode_output, enable_vt_mode_input,
      get_std_handle, get_console_mode, set_console_mode]
  · simp [into_raw_mode, enable_vt_mode_output, enable_vt_mode_input,
      rawTerminalDrop, dropRestoreInput,
      get_std_handle, get_console_mode, set_console_mode]

/-- Witness for C3: Scenario A's flag pair (output `0b0000`, input `0b1110`)
round-trips through entry and release. -/
theorem raw_mode_round_trip_witness :
    ∃ t : RawTerminal Unit,
      (into_raw_mode Unit
          ⟨0, 14, 80, 24, true, true, true, true, true, true, true⟩ ()).1 =
        Except.ok t ∧ t.output = () ∧
      rawTerminalDrop Unit
          (into_raw_mode Unit
            ⟨0, 14, 80, 24, true, true, true, true, true, true, true⟩ ()).2 t =
        (DropOutcome.ok, ⟨0, 14, 80, 24, true, true, true, true, true, true, true⟩) :=
  raw_mode_round_trip Unit
    ⟨0, 14, 80, 24, true, true, true, true, true, true, true⟩ ()
    rfl rfl rfl rfl rfl rfl

/-- Counterexample to C1 as stated: with output resolution, query and set all
succeeding but input-handle resolution failing, `into_raw_mode` fails, yet
the output mode is left at the raw value `0b1101`, not restored to the
pre-call value `0`. -/
theorem into_raw_mode_no_rollback_counterexample :
    ((into_raw_mode Unit
        ⟨0, 14, 80, 24, true, false, true, true, true, true, true⟩ ()).1.isOk
      = false) ∧
    (into_raw_mode Unit
        ⟨0, 14, 80, 24, true, false, true, true, true, true, true⟩ ()).2.outputMode
      ≠ 0 := by
  decide

/-- C1 as amended: when the output-side apply succeeds and any input-side
step (handle resolution, mode query, or mode set) fails, `into_raw_mode`
returns an error and no session, but the output endpoint is left in the
newly applied raw mode — `outputRawTransform output_prev` — rather than
being restored to `output_prev`; the input mode is untouched. -/
theorem into_raw_mode_input_failure_leaves_output_raw (W : Type) (b : Backend)
    (sink : W) (h1 : b.resolveOutput = true) (h2 : b.getOutputOk = true)
    (h3 : b.setOutputOk = true)
    (hfail : b.resolveInput = false ∨ b.getInputOk = false ∨
      b.setInputOk = false) :
    (into_raw_mode W b sink).1.isOk = false ∧
    (into_raw_mode W b sink).2.outputMode = outputRawTransform b.outputMode ∧
    (into_raw_mode W b sink).2.inputMode = b.inputMode := by
  rcases hfail with hf | hf | hf <;>
  · constructor
    · rcases hr : b.resolveInput with _ | _ <;>
        rcases hg : b.getInputOk with _ | _ <;>
        simp_all [into_raw_mode, enable_vt_mode_output, enable_vt_mode_input,
          get_std_handle, get_console_mode, set_console_mode, Except.isOk, Except.toBool]
    · rcases hr : b.resolveInput with _ | _ <;>
        rcases hg : b.getInputOk with _ | _ <;>
        simp_all [into_raw_mode, enable_vt_mode_output, enable_vt_mode_input,
          get_std_handle, get_console_mode, set_console_mode, Except.isOk, Except.toBool]

/-- Witness for the amended C1: Scenario B's shape — input resolution fails,
entry fails, and the output mode now reads `13 = 0b1101`, the raw value. -/
theorem into_raw_mode_input_failure_leaves_output_raw_witness :
    ((into_raw_mode Unit
        ⟨0, 14, 80, 24, true, false, true, true, true, true, true⟩ ()).1.isOk
      = false) ∧
    (into_raw_mode Unit
        ⟨0, 14, 80, 24, true, false, true, true, true, true, true⟩ ()).2.outputMode
      = 13 ∧
    (into_raw_mode Unit
        ⟨0, 14, 80, 24, true, false, true, true, true, true, true⟩ ()).2.inputMode
      = 14 :=
  into_raw_mode_input_failure_leaves_output_raw Unit
    ⟨0, 14, 80, 24, true, false, true, true, true, true, true⟩ ()
    rfl rfl rfl (Or.inl rfl)

/-- Counterexample to C2 as stated: with the output handle resolvable but the
output-endpoint `SetConsoleMode` failing at drop time, the drop body panics
(the `.unwrap()` in `Drop for RawTerminal`), and the input endpoint's
restoration is not attempted — its mode stays `520` although the input
restore was resolvable, would have succeeded, and would have written `14`. -/
theorem rawTerminalDrop_panics_counterexample :
    (rawTerminalDrop Unit
        ⟨13, 520, 80, 24, true, true, true, true, false, true, true⟩
        ⟨0, 14, ()⟩).1 = DropOutcome.panicked ∧
    (rawTerminalDrop Unit
        ⟨13, 520, 80, 24, true, true, true, true, false, true, true⟩
        ⟨0, 14, ()⟩).2.inputMode = 520 := by
  decide

/-- C2 as amended: when the output handle resolves at drop time but the
output-endpoint mode write fails, session release panics (it unwraps the
failed `SetConsoleMode`), the panic suppresses the input endpoint's restore
attempt, and the backend is left exactly as it was when the drop began. -/
theorem rawTerminalDrop_output_set_failure_panics (W : Type) (b : Backend)
    (t : RawTerminal W) (hres : b.resolveOutput = true)
    (hset : b.setOutputOk = false) :
    rawTerminalDrop W b t = (DropOutcome.panicked, b) := by
  simp [rawTerminalDrop, get_std_handle, set_console_mode, hres, hset]

/-- Witness for the amended C2 at a concrete backend and session. -/
theorem rawTerminalDrop_output_set_failure_panics_witness :
    rawTerminalDrop Unit
        ⟨13, 520, 80, 24, true, true, true, true, false, true, true⟩
        ⟨0, 14, ()⟩ =
      (DropOutcome.panicked,
        ⟨13, 520, 80, 24, true, true, true, true, false, true, true⟩) :=
  rawTerminalDrop_output_set_failure_panics Unit
    ⟨13, 520, 80, 24, true, true, true, true, false, true, true⟩
    ⟨0, 14, ()⟩ rfl rfl

/-- C8: session release re-resolves the standard handles (the session object
stores none), and an endpoint whose handle fails to resolve at drop time is
silently skipped — no mode write for it, no error, no panic — while the other
endpoint's restoration is still attempted: if both resolutions fail the drop
is a no-op that completes normally; if only the output resolution fails, the
input endpoint is still restored; if only the input resolution fails, the
output endpoint is still restored. -/
theorem rawTerminalDrop_skips_unresolvable (W : Type) (b : Backend)
    (t : RawTerminal W) :
    (b.resolveOutput = false → b.resolveInput = false →
      rawTerminalDrop W b t = (DropOutcome.ok, b)) ∧
    (b.resolveOutput = false → b.resolveInput = true → b.setInputOk = true →
      rawTerminalDrop W b t =
        (DropOutcome.ok, { b with inputMode := t.input_prev })) ∧
    (b.resolveOutput = true → b.setOutputOk = true → b.resolveInput = false →
      rawTerminalDrop W b t =
        (DropOutcome.ok, { b with outputMode := t.output_prev })) := by
  refine ⟨?_, ?_, ?_⟩ <;> intro h1 h2 <;>
    first
      | (intro h3;
         simp [rawTerminalDrop, dropRestoreInput, get_std_handle,
           set_console_mode, h1, h2, h3])
      | simp [rawTerminalDrop, dropRestoreInput, get_std_handle,
          set_console_mode, h1, h2]

/-- Witness for C8: with the output handle unresolvable at drop time, release
completes normally and still restores the input endpoint to `14`. -/
theorem rawTerminalDrop_skips_unresolvable_witness :
    rawTerminalDrop Unit
        ⟨13, 520, 80, 24, false, true, true, true, true, true, true⟩
        ⟨0, 14, ()⟩ =
      (DropOutcome.ok,
        ⟨13, 14, 80, 24, false, true, true, true, true, true, true⟩) :=
  (rawTerminalDrop_skips_unresolvable Unit
      ⟨13, 520, 80, 24, false, true, true, true, true, true, true⟩
      ⟨0, 14, ()⟩).2.1 rfl rfl rfl

/-- C6: `terminal_size` fails with an `IoErr` when output-handle resolution or
the geometry query fails, otherwise returns exactly the backend-reported
column/row pair (so an 80×24 buffer yields `(80, 24)`), and — being a pure
function of the backend — two consecutive calls against an unchanged backend
return identical dimensions. -/
theorem terminal_size_spec (b : Backend) :
    ((b.resolveOutput = false ∨ b.bufferInfoOk = false) →
      terminal_size b = Except.error IoErr.osError) ∧
    (b.resolveOutput = true → b.bufferInfoOk = true →
      terminal_size b =
        Except.ok (i16_as_u16 b.dwSizeX, i16_as_u16 b.dwSizeY)) ∧
    (b.resolveOutput = true → b.bufferInfoOk = true → b.dwSizeX = 80 →
      b.dwSizeY = 24 → terminal_size b = Except.ok (80, 24)) ∧
    terminal_size b = terminal_size b := by
  refine ⟨?_, ?_, ?_, rfl⟩
  · rintro (h | h) <;> simp [terminal_size, h]
  · intro h1 h2
    simp [terminal_size, h1, h2]
  · intro h1 h2 hx hy
    simp [terminal_size, h1, h2, hx, hy, i16_as_u16]

/-- Witness for C6: Scenario C — an 80×24 buffer yields `(80, 24)`, twice. -/
theorem terminal_size_spec_witness :
    terminal_size ⟨0, 14, 80, 24, true, true, true, true, true, true, true⟩ =
      Except.ok (80, 24) ∧
    terminal_size ⟨0, 14, 80, 24, true, true, true, true, true, true, true⟩ =
      terminal_size ⟨0, 14, 80, 24, true, true, true, true, true, true, true⟩ :=
  ⟨(terminal_size_spec
      ⟨0, 14, 80, 24, true, true, true, true, true, true, true⟩).2.2.1
      rfl rfl rfl rfl,
    (terminal_size_spec
      ⟨0, 14, 80, 24, true, true, true, true, true, true, true⟩).2.2.2⟩

/-- C7: `RawTerminal`'s `write` hands the buffer verbatim to the wrapped
sink's `write` and returns its result unchanged (same error, or same count
with the sink state evolved exactly as the sink evolved it and the saved mode
words untouched), and `flush` invokes exactly the wrapped sink's `flush`,
likewise returning its result unchanged. -/
theorem rawTerminal_forwarding (W : Type) (iw : WriteImpl W)
    (t : RawTerminal W) (buf : List Nat) :
    (∀ e, iw.write t.output buf = Except.error e →
      RawTerminal.write W iw t buf = Except.error e) ∧
    (∀ n w1, iw.write t.output buf = Except.ok (n, w1) →
      RawTerminal.write W iw t buf =
        Except.ok (n, { t with output := w1 })) ∧
    (∀ e, iw.flush t.output = Except.error e →
      RawTerminal.flush W iw t = Except.error e) ∧
    (∀ w1, iw.flush t.output = Except.ok w1 →
      RawTerminal.flush W iw t = Except.ok { t with output := w1 }) := by
  refine ⟨?_, ?_, ?_, ?_⟩
  · intro e h
    simp [RawTerminal.write, h]
  · intro n w1 h
    simp [RawTerminal.write, h]
  · intro e h
    simp [RawTerminal.flush, h]
  · intro w1 h
    simp [RawTerminal.flush, h]

/-- Witness for C7: against an accumulating list sink, writing `[1, 2, 3]`
through the session appends exactly those bytes to the sink and reports 3
bytes written, leaving the saved mode words untouched. -/
theorem rawTerminal_forwarding_witness :
    RawTerminal.write (List Nat)
        ⟨fun w buf => Except.ok (buf.length, w ++ buf), fun w => Except.ok w⟩
        ⟨13, 520, [7]⟩ [1, 2, 3] =
      Except.ok (3, ⟨13, 520, [7, 1, 2, 3]⟩) ∧
    RawTerminal.flush (List Nat)
        ⟨fun w buf => Except.ok (buf.length, w ++ buf), fun w => Except.ok w⟩
        ⟨13, 520, [7]⟩ =
      Except.ok ⟨13, 520, [7]⟩ :=
  ⟨(rawTerminal_forwarding (List Nat)
      ⟨fun w buf => Except.ok (buf.length, w ++ buf), fun w => Except.ok w⟩
      ⟨13, 520, [7]⟩ [1, 2, 3]).2.1 3 [7, 1, 2, 3] rfl,
    (rawTerminal_forwarding (List Nat)
      ⟨fun w buf => Except.ok (buf.length, w ++ buf), fun w => Except.ok w⟩
      ⟨13, 520, [7]⟩ [1, 2, 3]).2.2.2 [7] rfl⟩

/-- C10: the buffer coordinates are converted by the bit-preserving
`i16 as u16` cast: each returned component is congruent to the reported
signed value modulo 2^16 and lies below 2^16; a nonnegative in-range value is
returned exactly, while a negative reported coordinate surfaces as the large
unsigned count `value + 65536` (at least 32768) rather than as an error. -/
theorem terminal_size_cast_spec (b : Backend) (hres : b.resolveOutput = true)
    (hq : b.bufferInfoOk = true) :
    (terminal_size b =
      Except.ok (i16_as_u16 b.dwSizeX, i16_as_u16 b.dwSizeY)) ∧
    (∀ x : Int, (i16_as_u16 x : Int) % 65536 = x % 65536 ∧
      i16_as_u16 x < 65536) ∧
    (∀ x : Int, 0 ≤ x → x < 32768 → (i16_as_u16 x : Int) = x) ∧
    (∀ x : Int, -32768 ≤ x → x < 0 →
      (i16_as_u16 x : Int) = x + 65536 ∧ 32768 ≤ i16_as_u16 x) := by
  refine ⟨?_, ?_, ?_, ?_⟩
  · simp [terminal_size, hres, hq]
  · intro x
    unfold i16_as_u16
    constructor <;> omega
  · intro x h0 h1
    unfold i16_as_u16
    omega
  · intro x h0 h1
    unfold i16_as_u16
    constructor <;> omega

/-- Witness for C10: a backend reporting `dwSize = (-1, 24)` yields
`(65535, 24)`, the negative column count surfacing as a large unsigned
value. -/
theorem terminal_size_cast_spec_witness :
    terminal_size ⟨0, 14, -1, 24, true, true, true, true, true, true, true⟩ =
      Except.ok (65535, 24) ∧
    ((65535 : Int) = -1 + 65536 ∧ 32768 ≤ (65535 : Nat)) :=
  ⟨(terminal_size_cast_spec
      ⟨0, 14, -1, 24, true, true, true, true, true, true, true⟩ rfl rfl).1,
    by
      have h := (terminal_size_cast_spec
        ⟨0, 14, -1, 24, true, true, true, true, true, true, true⟩ rfl rfl).2.2.2
        (-1) (by norm_num) (by norm_num)
      exact h⟩

end Termion
